import Mathlib

/-!
# MachineMon check-in runtime: a shallow embedding

A shallow Lean embedding of the MachineMon Home Assistant client
(`custom_components/machinemon`): the collection client (`api.py`), the
payload builder and interface-address normalization (`runtime.py`), and the
check-in attempt with its single-flight guard and identity reconciliation
(`runtime.py`).  External libraries (aiohttp transport, psutil readings,
Python's `ipaddress` module) appear as explicit inputs; the embedded
functions follow the Python control flow line by line.
-/

namespace Machinemon

/-- JSON values as decoded by Python's `json` module (numbers restricted to
integers, which covers every value the claims exercise). -/
inductive Json where
  | null
  | bool (b : Bool)
  | int (n : Int)
  | str (s : String)
  | arr (xs : List Json)
  | obj (kvs : List (String × Json))
deriving Repr

/-- Python truthiness of a JSON-decoded value: `None`, `False`, `0`, `""`,
`[]` and `\x7b\x7d` are falsy, everything else truthy. -/
def Json.truthy : Json → Bool
  | .null => false
  | .bool b => b
  | .int n => n != 0
  | .str s => s != ""
  | .arr xs => !xs.isEmpty
  | .obj kvs => !kvs.isEmpty

/-- Whether a JSON value is an object (`isinstance(payload, dict)`). -/
def Json.isObj : Json → Bool
  | .obj _ => true
  | _ => false

/-- Python `repr` of a string: single quotes, unless the string contains a
single quote and no double quote.  (Escape sequences for quotes and control
characters inside the string are beyond the values in scope here.) -/
def pyReprStr (s : String) : String :=
  if s.contains (Char.ofNat 39) && !s.contains (Char.ofNat 34) then
    "\"" ++ s ++ "\""
  else
    String.singleton (Char.ofNat 39) ++ s ++ String.singleton (Char.ofNat 39)

mutual

/-- Python `repr` of a JSON-decoded value. -/
def pyRepr : Json → String
  | .null => "None"
  | .bool b => if b then "True" else "False"
  | .int n => toString n
  | .str s => pyReprStr s
  | .arr xs => "[" ++ pyReprItems xs ++ "]"
  | .obj kvs => "\x7b" ++ pyReprPairs kvs ++ "\x7d"

/-- Comma-separated `repr`s of list items. -/
def pyReprItems : List Json → String
  | [] => ""
  | [x] => pyRepr x
  | x :: xs => pyRepr x ++ ", " ++ pyReprItems xs

/-- Comma-separated `repr`s of dict entries. -/
def pyReprPairs : List (String × Json) → String
  | [] => ""
  | [(k, v)] => pyReprStr k ++ ": " ++ pyRepr v
  | (k, v) :: xs => pyReprStr k ++ ": " ++ pyRepr v ++ ", " ++ pyReprPairs xs

end

/-- Python `str` of a JSON-decoded value: identity on strings, `repr`
otherwise (`str(None) = "None"`, `str(True) = "True"`, `str(123) = "123"`,
containers print as their `repr`). -/
def pyStr : Json → String
  | .str s => s
  | v => pyRepr v

/-- Python `str.strip()` with no argument: remove whitespace from both ends
(working on the character list so that concrete instances compute). -/
def pyStrip (s : String) : String :=
  ⟨((s.data.dropWhile Char.isWhitespace).reverse.dropWhile Char.isWhitespace).reverse⟩

/-- Python `str.lower()`: lower-case each character (the ASCII rule, which
covers the platform and architecture names in scope). -/
def pyLower (s : String) : String :=
  ⟨s.data.map Char.toLower⟩

/-- Python `dict.get`: the value stored under `k`, `none` for a missing key
(later entries override earlier ones, as in a dict built by `json.loads`). -/
def pyGet (kvs : List (String × Json)) (k : String) : Option Json :=
  kvs.foldl (fun acc p => if p.1 = k then some p.2 else acc) none

/-- `response.get(k)` on a decoded JSON value (only objects hold keys). -/
def respGet (j : Json) (k : String) : Option Json :=
  match j with
  | .obj kvs => pyGet kvs k
  | _ => none

/-- Python dict assignment `d[k] = v`: replace in place when the key exists,
append otherwise. -/
def dictSet (kvs : List (String × Json)) (k : String) (v : Json) :
    List (String × Json) :=
  if kvs.any (fun p => p.1 = k) then
    kvs.map (fun p => if p.1 = k then (k, v) else p)
  else
    kvs ++ [(k, v)]

/-! ## Collection client (`api.py`) -/

/-- The Python exception classes raised by the collection client:
`MachineMonApiError` is the base, `MachineMonAuthError` and
`MachineMonConnectionError` are its subclasses (`api.py` lines 11-20). -/
inductive ErrClass where
  | api
  | auth
  | conn
deriving Repr, DecidableEq

/-- The subclass relation of the three exception classes as declared in
`api.py`: `MachineMonAuthError(MachineMonApiError)` and
`MachineMonConnectionError(MachineMonApiError)`; every class is a subclass
of itself. -/
def ErrClass.isSubclassOf : ErrClass → ErrClass → Bool
  | .auth, .api => true
  | .conn, .api => true
  | a, b => a == b

/-- An exception escaping `_request_json`: either an instance of the
`MachineMonApiError` hierarchy (with its class and message), or the
`json.JSONDecodeError` that `response.json` raises on a body that is not
valid JSON, which no `except` clause in `api.py` catches. -/
inductive PyError where
  | machineMon (cls : ErrClass) (msg : String)
  | jsonDecode (body : String)
deriving Repr, DecidableEq

/-- An HTTP response as the client observes it: the status code, the body
text (`response.text()`), and the result of JSON-decoding the body
(`none` when the body is not valid JSON). -/
structure HttpResponse where
  status : Nat
  bodyText : String
  bodyJson : Option Json
deriving Repr

/-- Outcome of the underlying `aiohttp` request: a transport-level failure
(`aiohttp.ClientError` or `asyncio.TimeoutError`, with its message) or a
response. -/
inductive Transport where
  | netFail (msg : String)
  | ok (r : HttpResponse)
deriving Repr

/-- `MachineMonApiClient._request_json` (`api.py` lines 42-80): raise
`MachineMonAuthError` on status 401, `MachineMonApiError` with the status and
the first 200 characters of the body on any other status >= 400, decode the
body as JSON otherwise — a body that is not valid JSON raises
`json.JSONDecodeError` (uncaught), a decoded non-object raises
`MachineMonApiError` — and wrap transport failures in
`MachineMonConnectionError`. -/
def _request_json (t : Transport) : Except PyError Json :=
  match t with
  | .netFail msg => .error (.machineMon .conn msg)
  | .ok r =>
    if r.status = 401 then
      .error (.machineMon .auth "Invalid client password")
    else if r.status ≥ 400 then
      .error (.machineMon .api
        ("HTTP " ++ toString r.status ++ " from MachineMon API: " ++
          r.bodyText.take 200))
    else
      match r.bodyJson with
      | none => .error (.jsonDecode r.bodyText)
      | some j =>
        if j.isObj then .ok j
        else .error (.machineMon .api "Invalid response: expected JSON object")

/-- `MachineMonApiClient.async_health_check` (`api.py` lines 30-32): a GET to
`/healthz` through `_request_json`, discarding the decoded body. -/
def async_health_check (t : Transport) : Except PyError Unit :=
  (_request_json t).map (fun _ => ())

/-- `MachineMonApiClient.async_checkin` (`api.py` lines 34-41): a POST of the
payload to `/api/v1/checkin` through `_request_json`, returning the decoded
response object. -/
def async_checkin (t : Transport) : Except PyError Json :=
  _request_json t

/-! ## Interface-address normalization (`runtime.py`, `_interface_ips`) -/

/-- The interface of Python's `ipaddress` module as `_interface_ips` uses it:
`ip_address` parses a string into an address object (`none` models the
`ValueError` on an unparsable string), each address has an `is_loopback`
flag and a canonical `compressed` string form.  The module is external to
the repository, so it is kept abstract. -/
structure IPModule where
  Addr : Type
  ip_address : String → Option Addr
  is_loopback : Addr → Bool
  compressed : Addr → String

/-- The zone-index stripping of `runtime.py` lines 126-127: when the raw
string starts with `"fe80:"`, keep only what stands before the first `%`
(`raw.split("%", 1)[0]`). -/
def stripZone (raw : String) : String :=
  if "fe80:".data.isPrefixOf raw.data then
    ⟨raw.data.takeWhile (fun c => c != '%')⟩
  else raw

/-- Adding one string to the accumulated set of addresses
(`addresses.add(...)` on a Python `set`): a no-op when already present. -/
def addAddress (acc : List String) (s : String) : List String :=
  if s ∈ acc then acc else acc ++ [s]

/-- The body of the inner loop of `_interface_ips` (`runtime.py` lines
120-136) applied to one raw address string: trim, skip empties, strip the
zone index from link-local strings, skip unparsable strings and loopback
addresses, and collect the compressed form. -/
def ipStep (M : IPModule) (acc : List String) (raw0 : String) : List String :=
  let raw := pyStrip raw0
  if raw = "" then acc
  else
    match M.ip_address (stripZone raw) with
    | none => acc
    | some parsed =>
      if M.is_loopback parsed then acc
      else addAddress acc (M.compressed parsed)

/-- `_interface_ips` (`runtime.py` lines 115-138): iterate over every
address string of every interface reported by `psutil.net_if_addrs()`,
collect the surviving compressed forms into a set, and return them sorted
(`sorted(addresses)`, lexicographic as in Python). -/
def _interface_ips (M : IPModule) (if_addrs : List (List String)) : List String :=
  List.insertionSort (· ≤ ·) (if_addrs.flatten.foldl (ipStep M) [])

/-! ## Payload builder (`runtime.py`, `_build_checkin_payload`) -/

/-- The `metrics` object of a check-in payload.  Percentages are the float
readings passed through `float(...)` (modelled as rationals, no arithmetic
is performed on them), byte counts the integer readings passed through
`int(...)`. -/
structure Metrics where
  cpu_pct : Rat
  mem_pct : Rat
  mem_total_bytes : Int
  mem_used_bytes : Int
  disk_pct : Rat
  disk_total_bytes : Int
  disk_used_bytes : Int
deriving Repr, DecidableEq

/-- The check-in payload (`runtime.py` lines 92-112). -/
structure CheckInPayload where
  hostname : String
  os : String
  arch : String
  client_version : String
  client_id : String
  session_id : String
  interface_ips : List String
  metrics : Metrics
  processes : List Json
  checks : List Json
deriving Repr

/-- `psutil.virtual_memory()` as read by the builder. -/
structure VirtualMemory where
  percent : Rat
  total : Int
  used : Int
deriving Repr, DecidableEq

/-- `psutil.disk_usage(path)` as read by the builder. -/
structure DiskUsage where
  percent : Rat
  total : Int
  used : Int
deriving Repr, DecidableEq

/-- The host readings `_build_checkin_payload` gathers through `socket`,
`platform` and `psutil`.  The embedding passes them in explicitly: every
library read of the Python function is a projection of this record. -/
structure HostEnv where
  gethostname : String
  system : String
  machine : String
  cpu_percent : Rat
  virtual_memory : VirtualMemory
  disk_usage : String → DiskUsage
  net_if_addrs : List (List String)

/-- `_build_checkin_payload` (`runtime.py` lines 87-112): assemble the
check-in payload from the identity fields and the host readings, choosing
the disk path by platform and lower-casing the OS and architecture names. -/
def _build_checkin_payload (M : IPModule) (env : HostEnv)
    (client_id session_id : String) : CheckInPayload :=
  let virtual_mem := env.virtual_memory
  let disk_path := if pyLower env.system = "windows" then "C:\\" else "/"
  let disk_usage := env.disk_usage disk_path
  { hostname := env.gethostname
    os := pyLower env.system
    arch := pyLower env.machine
    client_version := "ha-integration-0.1.0"
    client_id := client_id
    session_id := session_id
    interface_ips := _interface_ips M env.net_if_addrs
    metrics :=
      { cpu_pct := env.cpu_percent
        mem_pct := virtual_mem.percent
        mem_total_bytes := virtual_mem.total
        mem_used_bytes := virtual_mem.used
        disk_pct := disk_usage.percent
        disk_total_bytes := disk_usage.total
        disk_used_bytes := disk_usage.used }
    processes := []
    checks := [] }

/-! ## Check-in runtime (`runtime.py`, `MachineMonRuntime._async_checkin`) -/

/-- The mutable runtime fields `_async_checkin` touches: `self._client_id`
(reconciled), `self._session_id` and `self._password` (immutable while
running). -/
structure RuntimeState where
  client_id : String
  session_id : String
  password : String
deriving Repr, DecidableEq

/-- The observable actions one check-in attempt can perform besides changing
the in-memory state: the two log calls and the configuration persistence
`hass.config_entries.async_update_entry(entry, data=data)`. -/
inductive Effect where
  | logError (msg : String)
  | logWarning (msg : String)
  | updateEntry (data : List (String × Json))
deriving Repr

/-- `str(response.get("client_id") or "")` (`runtime.py` line 79, before the
`.strip()`): the `or` short-circuits every falsy value — and a missing key,
since `get` returns `None` — to `""`; a truthy value is rendered with
`str`. -/
def coerceClientId (o : Option Json) : String :=
  match o with
  | none => ""
  | some v => if v.truthy then pyStr v else ""

/-- `MachineMonRuntime._async_checkin` (`runtime.py` lines 58-84) for one
attempt.  Inputs: whether `self._lock.locked()` held at entry, the runtime
state, the entry data `self._entry.data`, and the transport outcome of the
check-in request.  Output: the runtime state after the attempt together
with the effects performed, or the exception escaping the attempt
(`except MachineMonAuthError` and `except MachineMonApiError` absorb the
typed client errors; anything else propagates). -/
def _async_checkin (lockHeld : Bool) (st : RuntimeState)
    (entryData : List (String × Json)) (t : Transport) :
    Except PyError (RuntimeState × List Effect) :=
  if lockHeld then .ok (st, [])
  else
    match async_checkin t with
    | .error (.machineMon cls msg) =>
      if cls.isSubclassOf .auth then
        .ok (st, [.logError "MachineMon check-in rejected: invalid client password"])
      else if cls.isSubclassOf .api then
        .ok (st, [.logWarning ("MachineMon check-in failed: " ++ msg)])
      else
        .error (.machineMon cls msg)
    | .error e => .error e
    | .ok response =>
      let server_client_id := pyStrip (coerceClientId (respGet response "client_id"))
      if server_client_id ≠ "" ∧ server_client_id ≠ st.client_id then
        .ok ({ st with client_id := server_client_id },
          [.updateEntry (dictSet entryData "client_id" (.str server_client_id))])
      else
        .ok (st, [])

/-! ## Concrete fixtures

Closed instances of the abstract inputs (the `ipaddress` interface and the
host readings), used to evaluate the theorems on explicit data. -/

/-- A small concrete instance of the `ipaddress` interface: every string
parses to itself except `"bad"` and `""`, the loopback address is
`"127.0.0.1"`, and the compressed form is the string itself. -/
def ipFixture : IPModule where
  Addr := String
  ip_address := fun s => if s = "bad" ∨ s = "" then none else some s
  is_loopback := fun a => a == "127.0.0.1"
  compressed := fun a => a

/-- Concrete host readings. -/
def envFixture : HostEnv where
  gethostname := "ha-host"
  system := "Linux"
  machine := "x86_64"
  cpu_percent := 7/2
  virtual_memory := { percent := 41, total := 1024, used := 512 }
  disk_usage := fun _ => { percent := 55, total := 2048, used := 1024 }
  net_if_addrs := [["10.0.0.2", "bad"], ["127.0.0.1", "10.0.0.1"]]

/-! ## Helper lemmas -/

/-- `str(x or "")` on an absent or string-valued `client_id`: the empty
string when absent, otherwise the string itself (empty strings are falsy
and short-circuit to `""`, which coincides). -/
lemma coerceClientId_strOpt (so : Option String) :
    coerceClientId (so.map Json.str) = so.getD "" := by
  cases so with
  | none => rfl
  | some s =>
    by_cases h : s = "" <;> simp [coerceClientId, Json.truthy, pyStr, h]

/-- The success path of one attempt in closed form: for a response with a
success status and an object body, the attempt reduces to the
reconciliation rule of `runtime.py` lines 79-84. -/
lemma async_checkin_success (st : RuntimeState) (d : List (String × Json))
    (r : HttpResponse) (kvs : List (String × Json))
    (h4 : r.status < 400) (hb : r.bodyJson = some (.obj kvs)) :
    _async_checkin false st d (.ok r) =
      if pyStrip (coerceClientId (pyGet kvs "client_id")) ≠ "" ∧
          pyStrip (coerceClientId (pyGet kvs "client_id")) ≠ st.client_id then
        .ok ({ st with client_id := pyStrip (coerceClientId (pyGet kvs "client_id")) },
          [.updateEntry (dictSet d "client_id"
            (.str (pyStrip (coerceClientId (pyGet kvs "client_id")))))])
      else
        .ok (st, []) := by
  have h401 : r.status ≠ 401 := by omega
  have h400 : ¬ r.status ≥ 400 := by omega
  simp only [_async_checkin, async_checkin, _request_json, if_neg h401, if_neg h400,
    hb, Json.isObj, if_pos, respGet, if_false, Bool.false_eq_true]

/-- Membership after a set insertion. -/
lemma mem_addAddress {acc : List String} {x s : String}
    (h : s ∈ addAddress acc x) : s ∈ acc ∨ s = x := by
  unfold addAddress at h
  split at h
  · exact Or.inl h
  · rcases List.mem_append.1 h with h' | h'
    · exact Or.inl h'
    · exact Or.inr (List.mem_singleton.1 h')

/-- Set insertion preserves distinctness. -/
lemma nodup_addAddress {acc : List String} (x : String)
    (h : acc.Nodup) : (addAddress acc x).Nodup := by
  unfold addAddress
  split
  · exact h
  · next hx => simpa [List.nodup_append, h] using hx

/-- Every string that one loop iteration adds is the compressed form of a
successfully parsed, non-loopback address of the zone-stripped raw. -/
lemma mem_ipStep {M : IPModule} {acc : List String} {raw s : String}
    (h : s ∈ ipStep M acc raw) :
    s ∈ acc ∨ ∃ a, M.ip_address (stripZone (pyStrip raw)) = some a ∧
      M.is_loopback a = false ∧ s = M.compressed a := by
  simp only [ipStep] at h
  split at h
  · exact Or.inl h
  · revert h
    split
    · exact fun h => Or.inl h
    · next a ha =>
      split
      · exact fun h => Or.inl h
      · next hl =>
        intro h
        rcases mem_addAddress h with h' | h'
        · exact Or.inl h'
        · exact Or.inr ⟨a, ha, by simpa using hl, h'⟩

/-- One loop iteration preserves distinctness of the accumulator. -/
lemma nodup_ipStep {M : IPModule} {acc : List String} (raw : String)
    (h : acc.Nodup) : (ipStep M acc raw).Nodup := by
  simp only [ipStep]
  split
  · exact h
  · split
    · exact h
    · split
      · exact h
      · exact nodup_addAddress _ h

/-- Provenance over the whole loop: every collected string comes from some
raw interface string that parsed to a non-loopback address. -/
lemma mem_foldl_ipStep {M : IPModule} :
    ∀ (raws acc : List String) (s : String),
      s ∈ raws.foldl (ipStep M) acc →
      s ∈ acc ∨ ∃ a, (∃ raw ∈ raws, M.ip_address (stripZone (pyStrip raw)) = some a) ∧
        M.is_loopback a = false ∧ s = M.compressed a := by
  intro raws
  induction raws with
  | nil => exact fun acc s h => Or.inl h
  | cons raw raws ih =>
    intro acc s h
    rcases ih (ipStep M acc raw) s h with h' | ⟨a, ⟨raw', hmem, hp⟩, hl, hc⟩
    · rcases mem_ipStep h' with h'' | ⟨a, hp, hl, hc⟩
      · exact Or.inl h''
      · exact Or.inr ⟨a, ⟨raw, List.mem_cons_self _ _, hp⟩, hl, hc⟩
    · exact Or.inr ⟨a, ⟨raw', List.mem_cons_of_mem _ hmem, hp⟩, hl, hc⟩

/-- The whole loop preserves distinctness. -/
lemma nodup_foldl_ipStep {M : IPModule} :
    ∀ (raws acc : List String), acc.Nodup → (raws.foldl (ipStep M) acc).Nodup := by
  intro raws
  induction raws with
  | nil => exact fun _ h => h
  | cons raw raws ih => exact fun acc h => ih _ (nodup_ipStep raw h)

/-- An iteration whose zone-stripped raw string does not parse leaves the
accumulator untouched (the silent `continue`). -/
lemma ipStep_skip {M : IPModule} {acc : List String} {raw : String}
    (h : M.ip_address (stripZone (pyStrip raw)) = none) : ipStep M acc raw = acc := by
  simp only [ipStep]
  split
  · rfl
  · rw [h]

/-- Truncating a string to its first `n` characters yields at most `n`
characters. -/
lemma length_take_le (s : String) (n : Nat) : (s.take n).length ≤ n := by
  rw [String.take_eq]
  show (s.data.take n).length ≤ n
  rw [List.length_take]
  omega

/-! ## Claims -/

/-- C2: a check-in trigger that finds the single-flight guard already held
returns immediately: the runtime state is unchanged and no effect — no
request, no log, no persistence — is performed, whatever the transport
would have answered; the dropped trigger leaves nothing queued (the attempt
ends with no pending work). -/
theorem checkin_skipped_when_guard_held (st : RuntimeState)
    (d : List (String × Json)) (t : Transport) :
    _async_checkin true st d t = .ok (st, []) := rfl

/-- C3: a response with status 401 is always classified as
`MachineMonAuthError`, whatever the body text and however the body decodes
— even to a JSON object carrying a `client_id` — and the attempt then only
logs at error severity: the runtime state (hence `clientId`) is unchanged
and no configuration update is persisted. -/
theorem checkin_401_always_auth_error (text : String) (bj : Option Json)
    (st : RuntimeState) (d : List (String × Json)) :
    _request_json (.ok ⟨401, text, bj⟩) =
      .error (.machineMon .auth "Invalid client password") ∧
    _async_checkin false st d (.ok ⟨401, text, bj⟩) =
      .ok (st, [.logError "MachineMon check-in rejected: invalid client password"]) :=
  ⟨rfl, rfl⟩

/-- C6: transport-level failures are wrapped in `MachineMonConnectionError`,
a class distinct from both `MachineMonApiError` and `MachineMonAuthError`
(so callers can catch it separately); `MachineMonAuthError` is a strict
subclass of `MachineMonApiError`; and it is distinguished at the
status-code level ahead of the generic `>= 400` handling — 401 satisfies
`>= 400`, yet is classified as an auth error. -/
theorem error_taxonomy_distinct (msg text : String) (bj : Option Json) :
    _request_json (.netFail msg) = .error (.machineMon .conn msg) ∧
    ErrClass.conn ≠ ErrClass.api ∧ ErrClass.conn ≠ ErrClass.auth ∧
    ErrClass.isSubclassOf .auth .api = true ∧ ErrClass.auth ≠ ErrClass.api ∧
    401 ≥ 400 ∧
    _request_json (.ok ⟨401, text, bj⟩) =
      .error (.machineMon .auth "Invalid client password") :=
  ⟨rfl, by decide, by decide, rfl, by decide, by decide, rfl⟩

set_option maxRecDepth 16384 in
/-- C5 counterexample: a health check answered with status 404 fails with a
`MachineMonApiError` whose class is not the connection-error class, against
the claim that any non-success status of `healthCheck` is classified as a
`ConnectionError`. -/
theorem health_check_404_api_error_cex :
    async_health_check (.ok ⟨404, "not found", none⟩) =
      .error (.machineMon .api "HTTP 404 from MachineMon API: not found") ∧
    ErrClass.api ≠ ErrClass.conn :=
  ⟨rfl, by decide⟩

/-- C7 counterexample: a success-status response whose body is not valid
JSON raises the (uncaught) `json.JSONDecodeError`, not the "invalid
response shape" `MachineMonApiError` the claim announces for non-JSON
bodies. -/
theorem request_json_nonjson_body_cex :
    _request_json (.ok ⟨200, "not json", none⟩) = .error (.jsonDecode "not json") ∧
    PyError.jsonDecode "not json" ≠
      PyError.machineMon .api "Invalid response: expected JSON object" :=
  ⟨rfl, by decide⟩

/-- C9 counterexample: the decode error of a success response with an
invalid JSON body escapes `_async_checkin` — an exception originating in
the collection client propagates out of the attempt, against the claim
that none does. -/
theorem checkin_decode_error_escapes_cex :
    _async_checkin false ⟨"local-abc", "sess", "pw"⟩ [] (.ok ⟨200, "ok", none⟩) =
      .error (.jsonDecode "ok") := rfl

set_option maxRecDepth 16384 in
/-- C10 counterexample: an empty JSON array is a non-string `client_id`
value outside the claim's falsy list (`false`, `0`, `null`, `""`, absent),
and its string rendering `"[]"` differs from the current identifier
`"local-abc"`; the claim therefore predicts adoption of `"[]"`, but the
empty array is falsy in Python, so the `or ""` short-circuit leaves the
identifier and configuration unchanged. -/
theorem client_id_empty_array_cex :
    Json.truthy (.arr []) = false ∧ pyStr (.arr []) = "[]" ∧ "[]" ≠ "local-abc" ∧
    _async_checkin false ⟨"local-abc", "sess", "pw"⟩ []
      (.ok ⟨200, "", some (.obj [("client_id", .arr [])])⟩) =
      .ok (⟨"local-abc", "sess", "pw"⟩, []) :=
  ⟨rfl, rfl, by decide, rfl⟩

/-- C1: on a successful check-in attempt (success status, object body)
whose response `client_id` is a string (or missing): when the trimmed value
is non-empty and differs from the current identifier, the in-memory
identifier becomes exactly that trimmed value and exactly one configuration
update — carrying the entry data with `client_id` set to it — is
persisted; when the `client_id` is missing, empty after trimming, or equal
to the current identifier, the state is unchanged and nothing is
persisted. -/
theorem checkin_reconciliation (st : RuntimeState) (d : List (String × Json))
    (r : HttpResponse) (kvs : List (String × Json)) (so : Option String)
    (h4 : r.status < 400) (hb : r.bodyJson = some (.obj kvs))
    (hid : pyGet kvs "client_id" = so.map Json.str) :
    (pyStrip (so.getD "") ≠ "" ∧ pyStrip (so.getD "") ≠ st.client_id →
      _async_checkin false st d (.ok r) =
        .ok ({ st with client_id := pyStrip (so.getD "") },
          [.updateEntry (dictSet d "client_id" (.str (pyStrip (so.getD ""))))])) ∧
    (pyStrip (so.getD "") = "" ∨ pyStrip (so.getD "") = st.client_id →
      _async_checkin false st d (.ok r) = .ok (st, [])) := by
  have key := async_checkin_success st d r kvs h4 hb
  rw [hid, coerceClientId_strOpt] at key
  constructor
  · intro h
    rw [key, if_pos h]
  · intro h
    rw [key, if_neg]
    rintro ⟨h1, h2⟩
    rcases h with h | h
    · exact h1 h
    · exact h2 h

/-- C1 witness: the spec's scenario — a runtime holding `"local-abc"`
receives `\x7b"client_id": "srv-123"\x7d` with status 200; the identifier
becomes `"srv-123"` and one configuration update is persisted. -/
theorem checkin_reconciliation_witness :
    _async_checkin false ⟨"local-abc", "sess", "pw"⟩ [("client_id", .str "local-abc")]
      (.ok ⟨200, "", some (.obj [("client_id", .str "srv-123")])⟩) =
      .ok (⟨"srv-123", "sess", "pw"⟩, [.updateEntry [("client_id", .str "srv-123")]]) := by
  have h := (checkin_reconciliation ⟨"local-abc", "sess", "pw"⟩
    [("client_id", .str "local-abc")] ⟨200, "", some (.obj [("client_id", .str "srv-123")])⟩
    [("client_id", .str "srv-123")] (some "srv-123")
    (by norm_num) rfl rfl).1 (by decide)
  exact h.trans (by rfl)

/-- C4: for every parser and every collection of interface address strings,
the built `interface_ips` sequence is sorted ascending and free of
duplicates; every entry is the canonical compressed form of an address that
parsed (after trimming and zone-index stripping) as non-loopback; and a raw
string whose zone-stripped form does not parse is skipped silently — the
build does not fail and its result is unchanged. -/
theorem interface_ips_normalized (M : IPModule) (if_addrs : List (List String)) :
    (_interface_ips M if_addrs).Sorted (· ≤ ·) ∧
    (_interface_ips M if_addrs).Nodup ∧
    (∀ s ∈ _interface_ips M if_addrs, ∃ a,
      (∃ raw ∈ if_addrs.flatten, M.ip_address (stripZone (pyStrip raw)) = some a) ∧
      M.is_loopback a = false ∧ s = M.compressed a) ∧
    (∀ raw, M.ip_address (stripZone (pyStrip raw)) = none →
      _interface_ips M ([raw] :: if_addrs) = _interface_ips M if_addrs) := by
  refine ⟨List.sorted_insertionSort _ _,
    ((List.perm_insertionSort _ _).nodup_iff).2 (nodup_foldl_ipStep _ _ List.nodup_nil),
    ?_, ?_⟩
  · intro s hs
    have hs' := (List.mem_insertionSort (· ≤ ·)).1 hs
    rcases mem_foldl_ipStep _ _ s hs' with h | ⟨a, hp, hl, hc⟩
    · cases h
    · exact ⟨a, hp, hl, hc⟩
  · intro raw h
    unfold _interface_ips
    rw [List.flatten_cons, List.singleton_append, List.foldl_cons, ipStep_skip h]

/-- C4 witness: on concrete interfaces holding a duplicate, an unparsable
string and the loopback address, the build keeps the two valid addresses in
sorted order; the unparsable string contributes nothing. -/
theorem interface_ips_normalized_witness :
    _interface_ips ipFixture [["10.0.0.2", "bad"], ["127.0.0.1", "10.0.0.1"]] =
      ["10.0.0.1", "10.0.0.2"] ∧
    (_interface_ips ipFixture [["10.0.0.2", "bad"], ["127.0.0.1", "10.0.0.1"]]).Sorted (· ≤ ·) ∧
    (_interface_ips ipFixture [["10.0.0.2", "bad"], ["127.0.0.1", "10.0.0.1"]]).Nodup ∧
    ipFixture.ip_address (stripZone (pyStrip "bad")) = none ∧
    _interface_ips ipFixture (["bad"] :: [["10.0.0.2"]]) = _interface_ips ipFixture [["10.0.0.2"]] :=
  ⟨by
    simp only [_interface_ips]
    rw [show [["10.0.0.2", "bad"], ["127.0.0.1", "10.0.0.1"]].flatten.foldl
        (ipStep ipFixture) [] = ["10.0.0.2", "10.0.0.1"] from rfl]
    simp [List.insertionSort, List.orderedInsert]
    decide,
   (interface_ips_normalized ipFixture _).1,
   (interface_ips_normalized ipFixture _).2.1,
   rfl,
   (interface_ips_normalized ipFixture [["10.0.0.2"]]).2.2.2 "bad" rfl⟩

/-- C5 amended: a health check fails with `MachineMonConnectionError`
exactly on transport failures; response statuses are classified as in every
other request — 401 is an auth error, any other status >= 400 an API error
— and a success needs a status below 400 together with a JSON-object body
(a non-object body is the shape API error, an undecodable body a raw decode
error). -/
theorem health_check_classification (t : Transport) :
    (∀ msg, t = .netFail msg → async_health_check t = .error (.machineMon .conn msg)) ∧
    (∀ r, t = .ok r →
      (r.status = 401 →
        async_health_check t = .error (.machineMon .auth "Invalid client password")) ∧
      (r.status ≠ 401 → r.status ≥ 400 →
        async_health_check t = .error (.machineMon .api
          ("HTTP " ++ toString r.status ++ " from MachineMon API: " ++ r.bodyText.take 200))) ∧
      (r.status < 400 → ∀ j, r.bodyJson = some j → j.isObj = true →
        async_health_check t = .ok ()) ∧
      (r.status < 400 → ∀ j, r.bodyJson = some j → j.isObj = false →
        async_health_check t = .error (.machineMon .api "Invalid response: expected JSON object")) ∧
      (r.status < 400 → r.bodyJson = none →
        async_health_check t = .error (.jsonDecode r.bodyText))) := by
  constructor
  · rintro msg rfl
    rfl
  · rintro r rfl
    refine ⟨?_, ?_, ?_, ?_, ?_⟩
    · intro h401
      simp [async_health_check, _request_json, Except.map, h401]
    · intro hne hge
      simp [async_health_check, _request_json, Except.map, hne, hge]
    · intro hlt j hb hobj
      have h1 : r.status ≠ 401 := by omega
      have h2 : ¬ r.status ≥ 400 := by omega
      simp [async_health_check, _request_json, Except.map, h1, h2, hb, hobj]
    · intro hlt j hb hobj
      have h1 : r.status ≠ 401 := by omega
      have h2 : ¬ r.status ≥ 400 := by omega
      simp [async_health_check, _request_json, Except.map, h1, h2, hb, hobj]
    · intro hlt hb
      have h1 : r.status ≠ 401 := by omega
      have h2 : ¬ r.status ≥ 400 := by omega
      simp [async_health_check, _request_json, Except.map, h1, h2, hb]

/-- C5 witness: a 401 health-check response is an auth error; a 204
response with an (empty) JSON-object body succeeds. -/
theorem health_check_classification_witness :
    async_health_check (.ok ⟨401, "denied", none⟩) =
      .error (.machineMon .auth "Invalid client password") ∧
    async_health_check (.ok ⟨204, "", some (.obj [])⟩) = .ok () :=
  ⟨((health_check_classification (.ok ⟨401, "denied", none⟩)).2 _ rfl).1 rfl,
   ((health_check_classification (.ok ⟨204, "", some (.obj [])⟩)).2 _ rfl).2.2.1
     (by norm_num) (.obj []) rfl rfl⟩

/-- C7 amended: a check-in request fails with the plain `MachineMonApiError`
exactly when the status is an error status other than 401, or the status is
a success and the body decodes to a non-object JSON value; in the first
case the error message carries the status and a body snippet of at most 200
characters, and on any such API error the attempt leaves the runtime state
unchanged and only logs a warning.  (A body that is not valid JSON raises a
decode error instead — see the counterexample.) -/
theorem api_error_characterization (r : HttpResponse) (st : RuntimeState)
    (d : List (String × Json)) :
    ((∃ msg, _request_json (.ok r) = .error (.machineMon .api msg)) ↔
      (r.status ≥ 400 ∧ r.status ≠ 401) ∨
      (r.status < 400 ∧ ∃ j, r.bodyJson = some j ∧ j.isObj = false)) ∧
    (r.status ≥ 400 → r.status ≠ 401 →
      _request_json (.ok r) = .error (.machineMon .api
        ("HTTP " ++ toString r.status ++ " from MachineMon API: " ++ r.bodyText.take 200)) ∧
      (r.bodyText.take 200).length ≤ 200) ∧
    (∀ j, r.status < 400 → r.bodyJson = some j → j.isObj = false →
      _request_json (.ok r) =
        .error (.machineMon .api "Invalid response: expected JSON object")) ∧
    (∀ msg, _request_json (.ok r) = .error (.machineMon .api msg) →
      _async_checkin false st d (.ok r) =
        .ok (st, [.logWarning ("MachineMon check-in failed: " ++ msg)])) := by
  refine ⟨?_, ?_, ?_, ?_⟩
  · constructor
    · rintro ⟨msg, h⟩
      simp only [_request_json] at h
      split_ifs at h with h1 h2
      · simp at h
      · exact Or.inl ⟨h2, h1⟩
      · revert h
        cases hb : r.bodyJson with
        | none => intro h; simp at h
        | some j =>
          cases hobj : j.isObj with
          | true => intro h; simp [hobj] at h
          | false =>
            intro h
            exact Or.inr ⟨by omega, j, rfl, hobj⟩
    · rintro (⟨hge, hne⟩ | ⟨hlt, j, hb, hobj⟩)
      · exact ⟨"HTTP " ++ toString r.status ++ " from MachineMon API: " ++
          r.bodyText.take 200, by simp [_request_json, hne, hge]⟩
      · have h1 : r.status ≠ 401 := by omega
        have h2 : ¬ r.status ≥ 400 := by omega
        exact ⟨"Invalid response: expected JSON object",
          by simp [_request_json, h1, h2, hb, hobj]⟩
  · intro hge hne
    exact ⟨by simp [_request_json, hne, hge], length_take_le _ _⟩
  · intro j hlt hb hobj
    have h1 : r.status ≠ 401 := by omega
    have h2 : ¬ r.status ≥ 400 := by omega
    simp [_request_json, h1, h2, hb, hobj]
  · intro msg h
    simp [_async_checkin, async_checkin, h, ErrClass.isSubclassOf]

set_option maxRecDepth 16384 in
/-- C7 witness: a 500 response with body `"boom"` yields the API error with
status and snippet, the snippet within 200 characters; a 200 response whose
body is the JSON array `[1]` yields the shape API error. -/
theorem api_error_characterization_witness :
    _request_json (.ok ⟨500, "boom", none⟩) =
      .error (.machineMon .api "HTTP 500 from MachineMon API: boom") ∧
    ("boom".take 200).length ≤ 200 ∧
    _request_json (.ok ⟨200, "[1]", some (.arr [.int 1])⟩) =
      .error (.machineMon .api "Invalid response: expected JSON object") := by
  have h1 := (api_error_characterization ⟨500, "boom", none⟩ ⟨"c", "s", "p"⟩ []).2.1
    (by norm_num) (by norm_num)
  have h2 := (api_error_characterization ⟨200, "[1]", some (.arr [.int 1])⟩
    ⟨"c", "s", "p"⟩ []).2.2.1 (.arr [.int 1]) (by norm_num) rfl rfl
  exact ⟨h1.1.trans (by rfl), h1.2, h2⟩

/-- C8: the payload builder is a pure function of its inputs — the parser,
the host readings, the client identifier and the session identifier: equal
inputs give equal payloads (determinism), and each payload field is exactly
the corresponding projection of the inputs, so no other source enters the
build. -/
theorem build_payload_pure_deterministic (M M' : IPModule) (e e' : HostEnv)
    (c c' s s' : String) (hM : M = M') (he : e = e') (hc : c = c') (hs : s = s') :
    _build_checkin_payload M e c s = _build_checkin_payload M' e' c' s' ∧
    (_build_checkin_payload M e c s).client_id = c ∧
    (_build_checkin_payload M e c s).session_id = s ∧
    (_build_checkin_payload M e c s).hostname = e.gethostname ∧
    (_build_checkin_payload M e c s).os = pyLower e.system ∧
    (_build_checkin_payload M e c s).arch = pyLower e.machine ∧
    (_build_checkin_payload M e c s).client_version = "ha-integration-0.1.0" ∧
    (_build_checkin_payload M e c s).interface_ips = _interface_ips M e.net_if_addrs ∧
    (_build_checkin_payload M e c s).metrics =
      { cpu_pct := e.cpu_percent
        mem_pct := e.virtual_memory.percent
        mem_total_bytes := e.virtual_memory.total
        mem_used_bytes := e.virtual_memory.used
        disk_pct := (e.disk_usage (if pyLower e.system = "windows" then "C:\\" else "/")).percent
        disk_total_bytes := (e.disk_usage (if pyLower e.system = "windows" then "C:\\" else "/")).total
        disk_used_bytes := (e.disk_usage (if pyLower e.system = "windows" then "C:\\" else "/")).used } ∧
    (_build_checkin_payload M e c s).processes = [] ∧
    (_build_checkin_payload M e c s).checks = [] := by
  subst hM he hc hs
  exact ⟨rfl, rfl, rfl, rfl, rfl, rfl, rfl, rfl, rfl, rfl, rfl⟩

/-- C8 witness: two builds from the same concrete inputs agree, and the
identity fields and lower-cased OS name land in the payload verbatim. -/
theorem build_payload_pure_deterministic_witness :
    _build_checkin_payload ipFixture envFixture "cid-1" "sid-1" =
      _build_checkin_payload ipFixture envFixture "cid-1" "sid-1" ∧
    (_build_checkin_payload ipFixture envFixture "cid-1" "sid-1").client_id = "cid-1" ∧
    (_build_checkin_payload ipFixture envFixture "cid-1" "sid-1").session_id = "sid-1" ∧
    (_build_checkin_payload ipFixture envFixture "cid-1" "sid-1").hostname = "ha-host" ∧
    (_build_checkin_payload ipFixture envFixture "cid-1" "sid-1").os = "linux" := by
  have h := build_payload_pure_deterministic ipFixture ipFixture envFixture envFixture
    "cid-1" "cid-1" "sid-1" "sid-1" rfl rfl rfl rfl
  exact ⟨h.1, h.2.1, h.2.2.1, h.2.2.2.1.trans (by rfl), h.2.2.2.2.1.trans (by rfl)⟩

/-- C9 amended: an attempt absorbs all three typed error kinds of the
collection client — an auth error leaves the state unchanged and logs at
error severity, a connection or API error leaves the state unchanged and
logs at warning severity, nothing else happens — while a decode error of an
invalid JSON success body is the one exception that propagates out of the
attempt. -/
theorem checkin_absorbs_typed_errors (st : RuntimeState) (d : List (String × Json))
    (t : Transport) :
    (∀ msg, async_checkin t = .error (.machineMon .auth msg) →
      _async_checkin false st d t =
        .ok (st, [.logError "MachineMon check-in rejected: invalid client password"])) ∧
    (∀ msg, async_checkin t = .error (.machineMon .conn msg) →
      _async_checkin false st d t =
        .ok (st, [.logWarning ("MachineMon check-in failed: " ++ msg)])) ∧
    (∀ msg, async_checkin t = .error (.machineMon .api msg) →
      _async_checkin false st d t =
        .ok (st, [.logWarning ("MachineMon check-in failed: " ++ msg)])) ∧
    (∀ body, async_checkin t = .error (.jsonDecode body) →
      _async_checkin false st d t = .error (.jsonDecode body)) := by
  refine ⟨?_, ?_, ?_, ?_⟩ <;> intro m h <;>
    simp [_async_checkin, h, ErrClass.isSubclassOf]

/-- C9 witness: a transport timeout is absorbed — the attempt returns
normally with the state unchanged and a single warning log. -/
theorem checkin_absorbs_typed_errors_witness :
    _async_checkin false ⟨"local-abc", "sess", "pw"⟩ [] (.netFail "timeout") =
      .ok (⟨"local-abc", "sess", "pw"⟩, [.logWarning "MachineMon check-in failed: timeout"]) := by
  have h := (checkin_absorbs_typed_errors ⟨"local-abc", "sess", "pw"⟩ []
    (.netFail "timeout")).2.1 "timeout" rfl
  exact h.trans (by rfl)

/-- C10 amended: reconciliation coerces the response `client_id` through
`str()` with a falsy short-circuit: a missing key or any falsy value —
`false`, `0`, `null`, `""`, and also the empty array or object — leaves the
identifier and configuration unchanged; any truthy value has its string
rendering trimmed and adopted (and persisted once) exactly when the result
is non-empty and differs from the current identifier. -/
theorem client_id_coercion (st : RuntimeState) (d : List (String × Json))
    (r : HttpResponse) (kvs : List (String × Json))
    (h4 : r.status < 400) (hb : r.bodyJson = some (.obj kvs)) :
    (pyGet kvs "client_id" = none → _async_checkin false st d (.ok r) = .ok (st, [])) ∧
    (∀ v, pyGet kvs "client_id" = some v → v.truthy = false →
      _async_checkin false st d (.ok r) = .ok (st, [])) ∧
    (∀ v, pyGet kvs "client_id" = some v → v.truthy = true →
      (pyStrip (pyStr v) ≠ "" ∧ pyStrip (pyStr v) ≠ st.client_id →
        _async_checkin false st d (.ok r) =
          .ok ({ st with client_id := pyStrip (pyStr v) },
            [.updateEntry (dictSet d "client_id" (.str (pyStrip (pyStr v))))])) ∧
      (pyStrip (pyStr v) = "" ∨ pyStrip (pyStr v) = st.client_id →
        _async_checkin false st d (.ok r) = .ok (st, []))) := by
  have key := async_checkin_success st d r kvs h4 hb
  refine ⟨?_, ?_, ?_⟩
  · intro h
    rw [h] at key
    rw [key, if_neg]
    rintro ⟨h1, _⟩
    exact h1 rfl
  · intro v hv ht
    rw [hv] at key
    simp only [coerceClientId, ht, if_false, Bool.false_eq_true] at key
    rw [key, if_neg]
    rintro ⟨h1, _⟩
    exact h1 rfl
  · intro v hv ht
    rw [hv] at key
    simp only [coerceClientId, ht, if_true] at key
    constructor
    · intro h
      rw [key, if_pos h]
    · intro h
      rw [key, if_neg]
      rintro ⟨h1, h2⟩
      rcases h with h | h
      · exact h1 h
      · exact h2 h

/-- C10 witness: the truthy number 123 as `client_id` is adopted through
its string rendering `"123"` and persisted. -/
theorem client_id_coercion_witness :
    pyStr (.int 123) = "123" ∧
    _async_checkin false ⟨"local-abc", "sess", "pw"⟩ []
      (.ok ⟨200, "", some (.obj [("client_id", .int 123)])⟩) =
      .ok (⟨"123", "sess", "pw"⟩, [.updateEntry [("client_id", .str "123")]]) := by
  have h := ((client_id_coercion ⟨"local-abc", "sess", "pw"⟩ []
    ⟨200, "", some (.obj [("client_id", .int 123)])⟩ [("client_id", .int 123)]
    (by norm_num) rfl).2.2 (.int 123) rfl rfl).1 (by decide)
  exact ⟨by decide, h.trans (by rfl)⟩

end Machinemon
